import Mathlib

/-!
Shallow embedding of `src/sketches/libraries/Energino/energino.h`.

The C `double` computations are modelled exactly over `ℚ` (all operations
involved are ring operations and divisions on decimal values); conversion of
a `double` to an integer type is C truncation toward zero, modelled by
`cTrunc`.  `int`/`long` arithmetic is modelled over `ℤ` (exact, overflow not
modelled: all claims use small values).  Serial output is accumulated as a
`String`; Arduino `println` appends a CR-LF pair.
-/

/-- the global `int DEFAULT_AREF = 5000`. -/
def DEFAULT_AREF : Int := 5000

/-- the persistent configuration record `settings_t`.  C strings are modelled
by their value up to the first NUL. -/
structure Settings where
  magic : String
  revision : Int
  period : Int
  r1 : Int
  r2 : Int
  offset : Int
  sensitivity : Int
  relaypin : Int
  currentpin : Int
  voltagepin : Int
  apikey : String
  feedid : Int
  feedsurl : String
deriving DecidableEq

/-- C conversion of a `double` to an integer type: truncation toward zero. -/
def cTrunc (q : ℚ) : Int := if q < 0 then -Int.floor (-q) else Int.floor q

/-- `double res(int aref)`: `aref / 1024.0`. -/
def res (aref : Int) : ℚ := (aref : ℚ) / 1024

/-- `int getVError(int aref)`: `(res(aref) * (settings.r1 + settings.r2)) / settings.r2`,
computed in `double` and truncated on return. -/
def getVError (s : Settings) (aref : Int) : Int :=
  cTrunc ((res aref * ((s.r1 + s.r2 : Int) : ℚ)) / (s.r2 : ℚ))

/-- `int getIError(int aref)`: `(res(aref) / settings.sensitivity) * 1000.0`,
truncated on return. -/
def getIError (s : Settings) (aref : Int) : Int :=
  cTrunc ((res aref / (s.sensitivity : ℚ)) * 1000)

/-- `double getAvgVoltage(double value, int aref)`. -/
def getAvgVoltage (s : Settings) (value : ℚ) (aref : Int) : ℚ :=
  let v_out : ℚ := value * res aref
  let output : ℚ := (v_out * ((s.r1 + s.r2 : Int) : ℚ)) / (s.r2 : ℚ)
  if output > 0 then output / 1000 else 0

/-- the one-argument overload `getAvgVoltage(double value)`. -/
def getAvgVoltageDefault (s : Settings) (value : ℚ) : ℚ :=
  getAvgVoltage s value DEFAULT_AREF

/-- `double getAvgCurrent(double value, int aref)`. -/
def getAvgCurrent (s : Settings) (value : ℚ) (aref : Int) : ℚ :=
  let v_out : ℚ := value * res aref
  let output : ℚ := (v_out - (s.offset : ℚ)) / (s.sensitivity : ℚ)
  if output > 0 then output else 0

/-- the one-argument overload `getAvgCurrent(double value)`. -/
def getAvgCurrentDefault (s : Settings) (value : ℚ) : ℚ :=
  getAvgCurrent s value DEFAULT_AREF

/-- `double getAvgPower(double voltage, double current, int aref)`. -/
def getAvgPower (s : Settings) (voltage current : ℚ) (aref : Int) : ℚ :=
  getAvgVoltage s voltage aref * getAvgCurrent s current aref

/-- the two-argument overload `getAvgPower(double voltage, double current)`. -/
def getAvgPowerDefault (s : Settings) (voltage current : ℚ) : ℚ :=
  getAvgPower s voltage current DEFAULT_AREF

/-- the characters accepted by C `isspace`, skipped by `atol`/`atoi`. -/
def isSpaceC (c : Char) : Bool :=
  c = ' ' || c = '\t' || c = '\n' || c = '\x0b' || c = '\x0c' || c = '\r'

/-- digit-accumulation loop of `atol`: consume decimal digits, stop at the
first non-digit (the NUL terminator included). -/
def atolDigits : List Char → Int → Int
  | [], acc => acc
  | c :: cs, acc =>
      if c.isDigit then atolDigits cs (10 * acc + ((c.toNat : Int) - 48)) else acc

/-- `long atol(const char *)` on the buffer contents: skip leading spaces,
an optional sign, then digits.  Exact-integer model, overflow not modelled. -/
def atolChars (cs : List Char) : Int :=
  match cs.dropWhile isSpaceC with
  | '-' :: rest => - atolDigits rest 0
  | '+' :: rest => atolDigits rest 0
  | rest => atolDigits rest 0

/-- `int atoi(const char *)`; same parse as `atol` in the exact model. -/
def atoiChars (cs : List Char) : Int := atolChars cs

/-- effect on a C string field of `strncpy(dst, src, n + 1)` followed by
`dst[n] = 0` (the K and U branches): the stored string is the source up to
its first NUL, truncated to `n` characters. -/
def strncpyTrunc (src : List Char) (n : Nat) : String :=
  String.mk ((src.takeWhile (fun c => c != '\x00')).take n)

/-- everything `dumpSettings()` prints (`println` emits CR-LF). -/
def dumpSettings (s : Settings) : String :=
  "@magic: " ++ s.magic ++ "\r\n" ++
  "@revision: " ++ toString s.revision ++ "\r\n" ++
  "@period: " ++ toString s.period ++ " ms\r\n" ++
  "@r1: " ++ toString s.r1 ++ " Kohm\r\n" ++
  "@r2: " ++ toString s.r2 ++ " Kohm\r\n" ++
  "@offset: " ++ toString s.offset ++ " mV\r\n" ++
  "@sensitivity: " ++ toString s.sensitivity ++ " mV/A\r\n" ++
  "@relaypin: " ++ toString s.relaypin ++ "\r\n" ++
  "@currentpin: " ++ toString s.currentpin ++ "\r\n" ++
  "@voltagepin: " ++ toString s.voltagepin ++ "\r\n"

/-- observable effect of one `serParseCommand(aref)` call: the settings after
the call, everything printed on the serial, how many times `saveSettings()`
ran, the `digitalWrite` to the relay pin if any (`true` for HIGH), whether
`reset()` was invoked (modelled as returning), and how many bytes were
consumed from the serial input by `Serial.read()`. -/
structure CmdResult where
  settings : Settings
  output : String
  saveCalls : Nat
  relayWrite : Option Bool
  resetCalled : Bool
  consumed : Nat
deriving DecidableEq

/-- sum of `n` consecutive `analogRead(settings.currentpin)` samples, the
readings being supplied by the environment `analog`. -/
def sumReads (analog : Nat → Int) (n : Nat) : Int :=
  (List.range n).foldl (fun acc i => acc + analog i) 0

/-- the command byte: `cmd` stays `'\0'` when the batch has no second byte. -/
def headOrNul : List Char → Char
  | [] => '\x00'
  | c :: _ => c

/-- the dispatch chain of `serParseCommand` (source lines 170-248), applied
to the command byte and the payload (buffer contents), with `n` the number
of bytes the read loop consumed. -/
def serDispatch (s : Settings) (aref : Int) (analog : Nat → Int)
    (cmd : Char) (payload : List Char) (n : Nat) : CmdResult :=
  if cmd = 'R' then
    { settings := s, output := "@reset\r\n", saveCalls := 1,
      relayWrite := none, resetCalled := true, consumed := n }
  else if cmd = 'Z' then
    { settings := s, output := dumpSettings s, saveCalls := 1,
      relayWrite := none, resetCalled := false, consumed := n }
  else if cmd = 'T' then
    let value := sumReads analog 1000
    let v_out := cTrunc (((value : ℚ) * res aref) / 1000)
    { settings := { s with offset := v_out },
      output := "@offset: " ++ toString v_out ++ "\r\n", saveCalls := 1,
      relayWrite := none, resetCalled := false, consumed := n }
  else if cmd = 'F' then
    let value := atolChars payload
    { settings := if value ≥ 0 then { s with feedid := value } else s,
      output := "", saveCalls := 1,
      relayWrite := none, resetCalled := false, consumed := n }
  else if cmd = 'K' then
    { settings := { s with apikey := strncpyTrunc payload 48 },
      output := "", saveCalls := 1,
      relayWrite := none, resetCalled := false, consumed := n }
  else if cmd = 'U' then
    { settings := { s with feedsurl := strncpyTrunc payload 59 },
      output := "", saveCalls := 1,
      relayWrite := none, resetCalled := false, consumed := n }
  else
    let value := atoiChars payload
    if value < 0 then
      { settings := s, output := "", saveCalls := 0,
        relayWrite := none, resetCalled := false, consumed := n }
    else if cmd = 'P' then
      { settings := { s with period := value },
        output := "@period: " ++ toString value ++ "ms\r\n", saveCalls := 1,
        relayWrite := none, resetCalled := false, consumed := n }
    else if cmd = 'A' then
      { settings := { s with r1 := value },
        output := "R1: " ++ toString value ++ " Kohm\r\n", saveCalls := 1,
        relayWrite := none, resetCalled := false, consumed := n }
    else if cmd = 'B' then
      { settings := { s with r2 := value },
        output := "R2: " ++ toString value ++ " Kohm\r\n", saveCalls := 1,
        relayWrite := none, resetCalled := false, consumed := n }
    else if cmd = 'C' then
      { settings := { s with offset := value },
        output := "Offeset: " ++ toString value ++ " mV\r\n", saveCalls := 1,
        relayWrite := none, resetCalled := false, consumed := n }
    else if cmd = 'D' then
      { settings := { s with sensitivity := value },
        output := "Sensitivity: " ++ toString value ++ " mV/A\r\n", saveCalls := 1,
        relayWrite := none, resetCalled := false, consumed := n }
    else if cmd = 'S' then
      if value > 0 then
        { settings := s, output := "@switch: high\r\n", saveCalls := 1,
          relayWrite := some true, resetCalled := false, consumed := n }
      else
        { settings := s, output := "@switch: low\r\n", saveCalls := 1,
          relayWrite := some false, resetCalled := false, consumed := n }
    else
      { settings := s, output := "", saveCalls := 1,
        relayWrite := none, resetCalled := false, consumed := n }

/-- `void serParseCommand(int aref)` on one batch of available serial input.
An empty batch returns at once; a batch whose first byte is not `'#'`
returns from inside the read loop after consuming only that byte; otherwise
the loop consumes the whole batch, takes the second byte as the command and
the rest as the payload, and dispatches. -/
def serParseCommand (s : Settings) (aref : Int) (analog : Nat → Int)
    (input : List Char) : CmdResult :=
  match input with
  | [] =>
      { settings := s, output := "", saveCalls := 0,
        relayWrite := none, resetCalled := false, consumed := 0 }
  | c :: rest =>
      if c = '#' then
        serDispatch s aref analog (headOrNul rest) (rest.drop 1) (rest.length + 1)
      else
        { settings := s, output := "", saveCalls := 0,
          relayWrite := none, resetCalled := false, consumed := 1 }

/-- the zero-argument overload `serParseCommand()`. -/
def serParseCommandDefault (s : Settings) (analog : Nat → Int)
    (input : List Char) : CmdResult :=
  serParseCommand s DEFAULT_AREF analog input

/-- indices of the local `char inputBytes[60]` buffer written during one
`serParseCommand` call: the read loop writes index `i - 2` for every byte
index `2 ≤ i < serAva`, and line 169 then writes the terminator at index
`serAva`.  Nothing is written when the batch is empty or its first byte is
not `'#'` (early return). -/
def inputBytesWrites (input : List Char) : List Nat :=
  match input with
  | [] => []
  | c :: rest =>
      if c = '#' then List.range (rest.length - 1) ++ [rest.length + 1]
      else []

/-- whether every buffer write of the call stays inside `inputBytes[60]`. -/
def writesInBounds (input : List Char) : Bool :=
  (inputBytesWrites input).all (fun j => j < 60)

/-- concrete settings used for witnesses (`r1 = 100`, `r2 = 10` as in the
calibration claim). -/
def testSettings : Settings :=
  { magic := "energino", revision := 1, period := 2000, r1 := 100, r2 := 10,
    offset := 2500, sensitivity := 185, relaypin := 2, currentpin := 3,
    voltagepin := 1, apikey := "foo", feedid := 0, feedsurl := "" }

/-- a trivial analog environment for witnesses. -/
def zeroRead : Nat → Int := fun _ => 0

/-- Claim C6: for every raw sample value `v ≥ 0`, every reference voltage and
every calibration setting, `getAvgVoltage` and `getAvgCurrent` are
non-negative: a negative intermediate result is clamped to 0. -/
theorem getAvg_nonneg (s : Settings) (v : ℚ) (aref : Int) (hv : 0 ≤ v) :
    0 ≤ getAvgVoltage s v aref ∧ 0 ≤ getAvgCurrent s v aref := by
  simp only [getAvgVoltage, getAvgCurrent]
  constructor
  · split
    · next h => exact div_nonneg (le_of_lt h) (by norm_num)
    · exact le_refl 0
  · split
    · next h => exact le_of_lt h
    · exact le_refl 0

/-- Witness for C6 at the concrete sample value 512. -/
theorem getAvg_nonneg_witness :
    0 ≤ (512 : ℚ) ∧
    0 ≤ getAvgVoltage testSettings 512 5000 ∧
    0 ≤ getAvgCurrent testSettings 512 5000 :=
  ⟨by norm_num, (getAvg_nonneg testSettings 512 5000 (by norm_num)).1,
    (getAvg_nonneg testSettings 512 5000 (by norm_num)).2⟩

/-- Claim C7: `getAvgPower` is the product of the voltage and current
conversions, and the overload without an `aref` argument uses the default
reference voltage 5000. -/
theorem getAvgPower_comp (s : Settings) (v i : ℚ) (aref : Int) :
    getAvgPower s v i aref = getAvgVoltage s v aref * getAvgCurrent s i aref ∧
    getAvgPowerDefault s v i = getAvgPower s v i 5000 :=
  ⟨rfl, rfl⟩

/-- Claim C8: with `r1 = 100`, `r2 = 10` and `aref = 5000` the ADC step is
`res 5000 = 4.8828125` mV, the exact error value is
`4.8828125 * 110 / 10 = 53.7109375`, and `getVError` truncates it toward
zero to the integer 53. -/
theorem getVError_calib :
    res 5000 = 4.8828125 ∧
    (4.8828125 * 110 / 10 : ℚ) = 53.7109375 ∧
    cTrunc (53.7109375 : ℚ) = 53 ∧
    getVError testSettings 5000 = 53 := by
  refine ⟨by norm_num [res], by norm_num, ?_, ?_⟩
  · norm_num [cTrunc]
  · norm_num [getVError, res, cTrunc, testSettings]

theorem atoiChars_fifty : atoiChars ('5' :: '0' :: []) = 50 := by decide

/-- Claim C3 fails as stated: on the batch "XP50", whose first byte is not
the frame marker, only one of the four available bytes is consumed. -/
theorem serParse_badMarker_counterexample :
    (serParseCommand testSettings 5000 zeroRead ("XP50".toList)).consumed = 1 ∧
    ("XP50".toList).length = 4 := by decide

/-- Claim C3 (amended): when the first available byte is not the frame
marker, `serParseCommand` consumes only that single byte — the rest of the
batch stays in the serial buffer — dispatches no command, leaves every
settings field unchanged and writes nothing to the serial output. -/
theorem serParse_badMarker (s : Settings) (aref : Int) (analog : Nat → Int)
    (c : Char) (rest : List Char) (h : c ≠ '#') :
    serParseCommand s aref analog (c :: rest) =
      { settings := s, output := "", saveCalls := 0, relayWrite := none,
        resetCalled := false, consumed := 1 } := by
  simp [serParseCommand, h]

/-- Witness for the amended C3 on the batch "XP50". -/
theorem serParse_badMarker_witness :
    serParseCommand testSettings 5000 zeroRead ('X' :: "P50".toList) =
      { settings := testSettings, output := "", saveCalls := 0,
        relayWrite := none, resetCalled := false, consumed := 1 } :=
  serParse_badMarker testSettings 5000 zeroRead 'X' ("P50".toList) (by decide)

/-- Claim C9: a P frame whose payload atoi-parses to 0 — the empty payload
and any payload not starting with a digit or sign included — sets `period`
to 0, echoes the period line with value 0, and invokes `saveSettings`. -/
theorem serParse_P_zero (s : Settings) (aref : Int) (analog : Nat → Int)
    (payload : List Char) (h : atoiChars payload = 0) :
    serParseCommand s aref analog ('#' :: 'P' :: payload) =
      { settings := { s with period := 0 }, output := "@period: 0ms\r\n",
        saveCalls := 1, relayWrite := none, resetCalled := false,
        consumed := payload.length + 2 } := by
  simp [serParseCommand, serDispatch, headOrNul, h]
  rfl

/-- Witness for C9 on the frame "#P" (empty payload). -/
theorem serParse_P_zero_witness :
    serParseCommand testSettings 5000 zeroRead ('#' :: 'P' :: []) =
      { settings := { testSettings with period := 0 },
        output := "@period: 0ms\r\n", saveCalls := 1, relayWrite := none,
        resetCalled := false, consumed := 2 } :=
  serParse_P_zero testSettings 5000 zeroRead [] (by decide)

/-- Claim C10: a frame whose command byte is none of the twelve recognized
commands changes no settings field and writes nothing to the serial output;
`saveSettings` still runs exactly when the payload atoi-parses to a
non-negative integer. -/
theorem serParse_unknownCmd (s : Settings) (aref : Int) (analog : Nat → Int)
    (cmd : Char) (payload : List Char)
    (h : cmd ∉ (['R', 'Z', 'T', 'F', 'K', 'U', 'P', 'A', 'B', 'C', 'D', 'S'] : List Char)) :
    serParseCommand s aref analog ('#' :: cmd :: payload) =
      { settings := s, output := "",
        saveCalls := if atoiChars payload < 0 then 0 else 1,
        relayWrite := none, resetCalled := false,
        consumed := payload.length + 2 } := by
  simp only [List.mem_cons, List.not_mem_nil, or_false, not_or] at h
  obtain ⟨hR, hZ, hT, hF, hK, hU, hP, hA, hB, hC, hD, hS⟩ := h
  simp [serParseCommand, serDispatch, headOrNul, hR, hZ, hT, hF, hK, hU, hP,
    hA, hB, hC, hD, hS]
  split <;> rename_i hx <;> simp [hx]

/-- Witness for C10 on the frame "#X1". -/
theorem serParse_unknownCmd_witness :
    serParseCommand testSettings 5000 zeroRead ('#' :: 'X' :: '1' :: []) =
      { settings := testSettings, output := "", saveCalls := 1,
        relayWrite := none, resetCalled := false, consumed := 3 } :=
  serParse_unknownCmd testSettings 5000 zeroRead 'X' ('1' :: []) (by decide)

/-- Claim C5 fails as stated for negative payloads: on "#S-1" the dispatch
returns at the shared negative-payload check, so the relay pin is not driven
low and nothing is echoed. -/
theorem serParse_S_counterexample :
    atoiChars ("-1".toList) < 0 ∧
    (serParseCommand testSettings 5000 zeroRead ("#S-1".toList)).relayWrite = none ∧
    (serParseCommand testSettings 5000 zeroRead ("#S-1".toList)).output = "" := by
  decide

/-- Claim C5 (amended): an S frame with a positive atoi payload drives the
relay pin high and echoes the high switch line; a payload parsing to zero
drives the pin low and echoes the low switch line; a negative payload is
rejected by the shared negative-payload check — no relay write, no output
and no save. -/
theorem serParse_S (s : Settings) (aref : Int) (analog : Nat → Int)
    (payload : List Char) :
    serParseCommand s aref analog ('#' :: 'S' :: payload) =
      (if atoiChars payload < 0 then
        { settings := s, output := "", saveCalls := 0, relayWrite := none,
          resetCalled := false, consumed := payload.length + 2 }
      else if atoiChars payload > 0 then
        { settings := s, output := "@switch: high\r\n", saveCalls := 1,
          relayWrite := some true, resetCalled := false,
          consumed := payload.length + 2 }
      else
        { settings := s, output := "@switch: low\r\n", saveCalls := 1,
          relayWrite := some false, resetCalled := false,
          consumed := payload.length + 2 }) := by
  simp [serParseCommand, serDispatch, headOrNul]

/-- Claim C1 fails as stated: the F command with a negative payload leaves
the settings unchanged but still invokes `saveSettings`. -/
theorem serParse_F_counterexample :
    atolChars ("-5".toList) < 0 ∧
    (serParseCommand testSettings 5000 zeroRead ("#F-5".toList)).settings = testSettings ∧
    (serParseCommand testSettings 5000 zeroRead ("#F-5".toList)).saveCalls = 1 := by
  decide

/-- Claim C1 (amended): for P/A/B/C/D/S frames whose payload atoi-parses to
a negative integer, `serParseCommand` leaves every settings field unchanged,
prints nothing and does not invoke `saveSettings`; an F frame with the same
negative payload also leaves the settings unchanged but still invokes
`saveSettings`.  Frame "#P50" sets `period` to 50 and persists it. -/
theorem serParse_negative_reject (s : Settings) (aref : Int) (analog : Nat → Int)
    (cmd : Char) (payload : List Char)
    (hc : cmd = 'P' ∨ cmd = 'A' ∨ cmd = 'B' ∨ cmd = 'C' ∨ cmd = 'D' ∨ cmd = 'S')
    (hneg : atoiChars payload < 0) :
    serParseCommand s aref analog ('#' :: cmd :: payload) =
      { settings := s, output := "", saveCalls := 0, relayWrite := none,
        resetCalled := false, consumed := payload.length + 2 } ∧
    (serParseCommand s aref analog ('#' :: 'F' :: payload)).settings = s ∧
    (serParseCommand s aref analog ('#' :: 'F' :: payload)).saveCalls = 1 ∧
    (serParseCommand s aref analog ("#P50".toList)).settings = { s with period := 50 } ∧
    (serParseCommand s aref analog ("#P50".toList)).saveCalls = 1 := by
  have hneg' : atolChars payload < 0 := hneg
  refine ⟨?_, ?_, ?_, ?_, ?_⟩
  · rcases hc with h | h | h | h | h | h <;> subst h <;>
      simp [serParseCommand, serDispatch, headOrNul, hneg]
  · simp [serParseCommand, serDispatch, headOrNul, not_le.mpr hneg']
  · simp [serParseCommand, serDispatch, headOrNul]
  · simp [serParseCommand, serDispatch, headOrNul, atoiChars_fifty]
  · simp [serParseCommand, serDispatch, headOrNul, atoiChars_fifty]

/-- Witness for the amended C1 on the frame "#P-5". -/
theorem serParse_negative_reject_witness :
    serParseCommand testSettings 5000 zeroRead ('#' :: 'P' :: "-5".toList) =
      { settings := testSettings, output := "", saveCalls := 0,
        relayWrite := none, resetCalled := false, consumed := 4 } :=
  (serParse_negative_reject testSettings 5000 zeroRead 'P' ("-5".toList)
    (Or.inl rfl) (by decide)).1

/-- Claim C2 fails as stated: the successfully parsed frame "#P-5" calls
`saveSettings` zero times, not once. -/
theorem serParse_save_counterexample :
    (serParseCommand testSettings 5000 zeroRead ("#P-5".toList)).saveCalls = 0 := by
  decide

/-- Claim C2 (amended): a frame whose first byte is the marker invokes
`saveSettings` exactly once — Z and T frames and F frames with a rejected
negative payload included — except when the command byte falls into the
shared numeric branch (none of R, Z, T, F, K, U) and the payload atoi-parses
to a negative integer, in which case the dispatch returns early and
`saveSettings` is not invoked at all. -/
theorem serParse_save_policy (s : Settings) (aref : Int) (analog : Nat → Int)
    (cmd : Char) (payload : List Char) :
    (serParseCommand s aref analog ('#' :: cmd :: payload)).saveCalls =
      (if cmd ≠ 'R' ∧ cmd ≠ 'Z' ∧ cmd ≠ 'T' ∧ cmd ≠ 'F' ∧ cmd ≠ 'K' ∧ cmd ≠ 'U' ∧
          atoiChars payload < 0 then 0 else 1) := by
  by_cases hR : cmd = 'R'
  · subst hR; simp [serParseCommand, serDispatch, headOrNul]
  by_cases hZ : cmd = 'Z'
  · subst hZ; simp [serParseCommand, serDispatch, headOrNul]
  by_cases hT : cmd = 'T'
  · subst hT; simp [serParseCommand, serDispatch, headOrNul]
  by_cases hF : cmd = 'F'
  · subst hF; simp [serParseCommand, serDispatch, headOrNul]
  by_cases hK : cmd = 'K'
  · subst hK; simp [serParseCommand, serDispatch, headOrNul]
  by_cases hU : cmd = 'U'
  · subst hU; simp [serParseCommand, serDispatch, headOrNul]
  by_cases hneg : atoiChars payload < 0
  · simp [serParseCommand, serDispatch, headOrNul, hR, hZ, hT, hF, hK, hU, hneg]
  · simp only [serParseCommand, serDispatch, headOrNul]
    simp [hR, hZ, hT, hF, hK, hU, hneg]
    repeat' split
    all_goals rfl

/-- Claim C4 is violated by the code: on a K frame carrying a 70-character
payload the read loop writes `inputBytes` indices 60 through 69 and the
terminator write of line 169 lands at index 72 — all outside the 60-byte
buffer — while the defined-behaviour part of the dispatch would truncate the
stored key to the first 48 payload characters. -/
theorem serParse_K_overflow :
    writesInBounds ("#K".toList ++ List.replicate 70 'a') = false ∧
    (72 : Nat) ∈ inputBytesWrites ("#K".toList ++ List.replicate 70 'a') ∧
    (serParseCommand testSettings 5000 zeroRead
        ("#K".toList ++ List.replicate 70 'a')).settings.apikey =
      String.mk (List.replicate 48 'a') := by
  decide

